import Mathlib

/-!
Verification development for the `sql_sandbox` library: a PostgreSQL test-database
sandbox that clones a template database into a uniquely named ephemeral database
per test and drops it on teardown.

Modelling conventions:
* Go strings are modelled as `List Char` (`GoStr`).
* Pure string helpers (`replaceDBName`, `extractDBName`, `generateUniqueDBName`)
  are translated directly from the Go source.
* Functions that talk to the database are modelled as functions of an explicit
  "world" record that fixes the outcome of each driver call (open, ping, exec,
  query), and they additionally return the trace of driver operations they
  issued, in order.
* `time.Now().UnixNano()` and `os.Getpid()` are nondeterministic inputs; they
  become explicit `Nat` parameters (both are nonnegative in any real run).
-/

namespace SqlSandbox

/-- Go strings, modelled as lists of characters. -/
abbrev GoStr := List Char

/-- Convert a Lean string literal to a `GoStr`. -/
def goS (s : String) : GoStr := s.toList

/-- Model of Go `strings.Contains s sub`: naive substring scan; Go's optimized
search has the same semantics (is `sub` a contiguous substring of `s`). -/
def goContains (s sub : GoStr) : Bool :=
  if sub.isPrefixOf s then true
  else
    match s with
    | [] => false
    | _ :: rest => goContains rest sub

/-- Helper for `goSplit`: returns the piece before the first separator and the
remaining pieces. -/
def goSplitAux (sep : Char) : GoStr → GoStr × List GoStr
  | [] => ([], [])
  | c :: cs =>
    let r := goSplitAux sep cs
    if c = sep then ([], r.1 :: r.2) else (c :: r.1, r.2)

/-- Model of Go `strings.Split s (string sep)` for a one-character separator:
always returns at least one piece; `n` separators yield `n+1` pieces. -/
def goSplit (sep : Char) (s : GoStr) : List GoStr :=
  (goSplitAux sep s).1 :: (goSplitAux sep s).2

/-- Model of Go `strings.Join parts sep` for an arbitrary separator string. -/
def goJoinStr (sep : GoStr) : List GoStr → GoStr
  | [] => []
  | [p] => p
  | p :: ps => p ++ sep ++ goJoinStr sep ps

/-- Model of Go `strings.Join parts " "` (single-character separator). -/
def goJoin (sep : Char) (ps : List GoStr) : GoStr := goJoinStr [sep] ps

/-- Model of Go `strings.TrimPrefix s pre`: drops `pre` when it is a prefix of
`s`, otherwise returns `s` unchanged. -/
def goTrim (s pre : GoStr) : GoStr :=
  if pre.isPrefixOf s then s.drop pre.length else s

/-- The `dbname=` token the connection-string utility looks for. -/
def dbnameTok : GoStr := goS "dbname="

/-- The loop body of `replaceDBName`'s DSN branch: Go iterates over the
space-separated parts, overwrites the first part that starts with `dbname=`
with `dbname=<newDBName>`, and breaks. -/
def replaceFirstDBName (newDBName : GoStr) : List GoStr → List GoStr
  | [] => []
  | p :: ps =>
    if dbnameTok.isPrefixOf p then (dbnameTok ++ newDBName) :: ps
    else p :: replaceFirstDBName newDBName ps

/-- Model of `replaceDBName(connStr, newDBName)` (sandbox.go): if the
descriptor contains `dbname=`, rewrite the first space-separated token that
starts with `dbname=`; otherwise append `&dbname=...` after an existing `?`,
or `?dbname=...` when there is none. Total on strings (never fails). -/
def replaceDBName (connStr newDBName : GoStr) : GoStr :=
  if goContains connStr dbnameTok then
    goJoin ' ' (replaceFirstDBName newDBName (goSplit ' ' connStr))
  else if goContains connStr (goS "?") then
    connStr ++ goS "&dbname=" ++ newDBName
  else
    connStr ++ goS "?dbname=" ++ newDBName

/-- Split `s` at the first occurrence of `c`: `(before, after)`, the separator
itself dropped; when `c` does not occur the result is `(s, [])` (Go code using
`strings.Index` treats the two cases identically for the fields we model). -/
def cutAt (c : Char) : GoStr → GoStr × GoStr
  | [] => ([], [])
  | x :: xs =>
    if x = c then ([], xs)
    else
      let r := cutAt c xs
      (x :: r.1, r.2)

/-- The two fields of a parsed URL that `extractDBName` consults. -/
structure GoURL where
  path : GoStr
  rawQuery : GoStr

/-- Model of Go `net/url.Parse` restricted to the descriptor shapes this
library feeds it (absolute `scheme://authority/path?query` URLs without
percent-escapes). Go's parser strips a `#fragment`, cuts the raw query at the
first `?`, reads the scheme up to the first `:`, and, when the remainder
starts with `//`, takes the authority up to the first `/`, the rest being the
path; a remainder without `//` is treated as opaque with an empty path.
Parse errors (control characters, malformed escapes) are not modelled: on such
input Go returns an error and `extractDBName` skips the URL branch. -/
def urlParse (s : GoStr) : Option GoURL :=
  let noFrag := (cutAt '#' s).1
  let cutQ := cutAt '?' noFrag
  let afterScheme := (cutAt ':' cutQ.1).2
  if (goS "//").isPrefixOf afterScheme then
    let rest := afterScheme.drop 2
    some { path := rest.dropWhile (fun c => c ≠ '/'), rawQuery := cutQ.2 }
  else
    some { path := [], rawQuery := cutQ.2 }

/-- Model of Go `url.Values.Get key` on a raw query: split on `&`, take the
first pair whose key (the part before `=`) matches, return its value;
absent key yields the empty string. -/
def queryGet (rawQuery key : GoStr) : GoStr :=
  match (goSplit '&' rawQuery).find? (fun kv => (cutAt '=' kv).1 = key) with
  | some kv => (cutAt '=' kv).2
  | none => []

/-- Model of `extractDBName(connStr)` (sandbox.go): a DSN containing a
space-separated `dbname=` token yields that token's value; otherwise a
`postgres://` or `postgresql://` URL yields the path with its leading `/`
trimmed, falling back to the `dbname` query parameter; otherwise empty. -/
def extractDBName (connStr : GoStr) : GoStr :=
  match
    (if goContains connStr dbnameTok then
      (goSplit ' ' connStr).find? (fun p => dbnameTok.isPrefixOf p)
    else none)
  with
  | some p => goTrim p dbnameTok
  | none =>
    if (goS "postgres://").isPrefixOf connStr
        || (goS "postgresql://").isPrefixOf connStr then
      match urlParse connStr with
      | some u =>
        let p := goTrim u.path (goS "/")
        if p ≠ [] then p
        else
          let dbname := queryGet u.rawQuery (goS "dbname")
          if dbname ≠ [] then dbname else []
      | none => []
    else []

/-- Decimal rendering of a natural number (the semantics of `fmt.Sprintf`'s
`%d` verb on a nonnegative integer), written with structural fuel so that it
reduces inside the kernel. -/
def natDecimalAux : Nat → Nat → GoStr
  | 0, _ => []
  | fuel + 1, n =>
    if n < 10 then [Char.ofNat (48 + n)]
    else natDecimalAux fuel (n / 10) ++ [Char.ofNat (48 + n % 10)]

/-- Decimal rendering of a natural number. -/
def natDecimal (n : Nat) : GoStr := natDecimalAux (n + 1) n

/-- Model of `generateUniqueDBName(prefix)` (sandbox.go):
`fmt.Sprintf("%s%d_%d", prefix, time.Now().UnixNano(), os.Getpid())`.
The timestamp and pid are explicit parameters; both are nonnegative in any
real execution, so they are modelled as `Nat`. -/
def generateUniqueDBName (pre : GoStr) (timestamp pid : Nat) : GoStr :=
  pre ++ natDecimal timestamp ++ '_' :: natDecimal pid

/-! Basic lemmas about the string utilities. -/

theorem goJoinStr_single (sep p : GoStr) : goJoinStr sep [p] = p := rfl

theorem goJoinStr_cons₂ (sep p q : GoStr) (qs : List GoStr) :
    goJoinStr sep (p :: q :: qs) = p ++ sep ++ goJoinStr sep (q :: qs) := rfl

theorem goJoinStr_goSplitAux (sep : Char) (s : GoStr) :
    goJoinStr [sep] ((goSplitAux sep s).1 :: (goSplitAux sep s).2) = s := by
  induction s with
  | nil => rfl
  | cons c cs ih =>
    rcases hr : goSplitAux sep cs with ⟨r1, r2⟩
    rw [hr] at ih
    dsimp only at ih
    by_cases hc : c = sep
    · subst hc
      simp only [goSplitAux, hr, eq_self_iff_true, if_true]
      rw [goJoinStr_cons₂]
      simpa using ih
    · simp only [goSplitAux, hr, if_neg hc]
      cases r2 with
      | nil =>
        rw [goJoinStr_single] at ih ⊢
        simp [ih]
      | cons q qs =>
        rw [goJoinStr_cons₂] at ih ⊢
        simpa using ih

theorem goJoin_goSplit (sep : Char) (s : GoStr) :
    goJoin sep (goSplit sep s) = s := by
  simpa [goJoin, goSplit] using goJoinStr_goSplitAux sep s

theorem not_mem_of_mem_goSplitAux (sep : Char) (s : GoStr) :
    sep ∉ (goSplitAux sep s).1 ∧ ∀ p ∈ (goSplitAux sep s).2, sep ∉ p := by
  induction s with
  | nil => simp [goSplitAux]
  | cons c cs ih =>
    rcases hr : goSplitAux sep cs with ⟨r1, r2⟩
    rw [hr] at ih
    dsimp only at ih
    by_cases hc : c = sep
    · subst hc
      simp only [goSplitAux, hr, eq_self_iff_true, if_true]
      refine ⟨by simp, ?_⟩
      intro p hp
      rcases List.mem_cons.mp hp with hp | hp
      · exact hp ▸ ih.1
      · exact ih.2 p hp
    · simp only [goSplitAux, hr, if_neg hc]
      refine ⟨?_, ih.2⟩
      intro hmem
      rcases List.mem_cons.mp hmem with h | h
      · exact hc h.symm
      · exact ih.1 h

theorem not_mem_of_mem_goSplit (sep : Char) (s : GoStr) :
    ∀ p ∈ goSplit sep s, sep ∉ p := by
  intro p hp
  rcases List.mem_cons.mp hp with h | h
  · exact h ▸ (not_mem_of_mem_goSplitAux sep s).1
  · exact (not_mem_of_mem_goSplitAux sep s).2 p h

theorem goSplitAux_of_not_mem {sep : Char} {p : GoStr} (h : sep ∉ p) :
    goSplitAux sep p = (p, []) := by
  induction p with
  | nil => rfl
  | cons c cs ih =>
    have hc : ¬ c = sep := fun hcc => h (by simp [hcc])
    have hcs : sep ∉ cs := fun hm => h (List.mem_cons_of_mem _ hm)
    simp [goSplitAux, hc, ih hcs]

theorem goSplitAux_append {sep : Char} {p : GoStr} (h : sep ∉ p) (t : GoStr) :
    goSplitAux sep (p ++ sep :: t) =
      (p, (goSplitAux sep t).1 :: (goSplitAux sep t).2) := by
  induction p with
  | nil => simp [goSplitAux]
  | cons c cs ih =>
    have hc : ¬ c = sep := fun hcc => h (by simp [hcc])
    have hcs : sep ∉ cs := fun hm => h (List.mem_cons_of_mem _ hm)
    simp [goSplitAux, hc, ih hcs]

theorem goSplit_goJoin (sep : Char) (ps : List GoStr)
    (hps : ∀ p ∈ ps, sep ∉ p) (hne : ps ≠ []) :
    goSplit sep (goJoin sep ps) = ps := by
  induction ps with
  | nil => exact absurd rfl hne
  | cons p qs ih =>
    cases qs with
    | nil =>
      have hp : sep ∉ p := hps p (by simp)
      simp [goJoin, goJoinStr, goSplit, goSplitAux_of_not_mem hp]
    | cons q qs' =>
      have hp : sep ∉ p := hps p (by simp)
      have hrest : ∀ r ∈ q :: qs', sep ∉ r := fun r hr =>
        hps r (List.mem_cons_of_mem _ hr)
      have ihr := ih hrest (by simp)
      have hjoin : goJoin sep (p :: q :: qs') =
          p ++ sep :: goJoin sep (q :: qs') := by
        simp [goJoin, goJoinStr]
      rw [hjoin]
      simp only [goSplit] at ihr ⊢
      rw [goSplitAux_append hp]
      exact congrArg (p :: ·) ihr

theorem mem_goJoin_isInfixP {sep : Char} {p : GoStr} {ps : List GoStr}
    (h : p ∈ ps) : p <:+: goJoin sep ps := by
  induction ps with
  | nil => cases h
  | cons q qs ih =>
    rcases List.mem_cons.mp h with hq | hq
    · subst hq
      cases qs with
      | nil => exact List.infix_refl p
      | cons q' qs' =>
        have : goJoin sep (p :: q' :: qs') =
            p ++ ([sep] ++ goJoin sep (q' :: qs')) := by
          simp [goJoin, goJoinStr]
        rw [this]
        exact (List.prefix_append p _).isInfix
    · cases qs with
      | nil => cases hq
      | cons q' qs' =>
        have hsub := ih hq
        have : goJoin sep (q :: q' :: qs') =
            (q ++ [sep]) ++ goJoin sep (q' :: qs') := by
          simp [goJoin, goJoinStr]
        rw [this]
        exact hsub.trans (List.suffix_append (q ++ [sep]) _).isInfix

theorem goContains_iff {s sub : GoStr} : goContains s sub = true ↔ sub <:+: s := by
  induction s with
  | nil =>
    rw [goContains]
    constructor
    · intro h
      split at h
      · next hpre => exact (List.isPrefixOf_iff_prefix.mp hpre).isInfix
      · exact absurd h (by simp)
    · intro h
      have hnil : sub = [] := List.sublist_nil.mp h.sublist
      subst hnil
      simp [List.isPrefixOf]
  | cons c cs ih =>
    rw [goContains]
    by_cases hpre : sub.isPrefixOf (c :: cs)
    · simp only [if_pos hpre, true_iff]
      exact (List.isPrefixOf_iff_prefix.mp hpre).isInfix
    · simp only [if_neg hpre]
      rw [List.infix_cons_iff]
      have hnp : ¬ sub <+: c :: cs := fun h => hpre (List.isPrefixOf_iff_prefix.mpr h)
      simp [hnp, ih]

theorem replaceFirstDBName_mem {n : GoStr} {ps : List GoStr}
    (h : ps.any (fun p => dbnameTok.isPrefixOf p) = true) :
    dbnameTok ++ n ∈ replaceFirstDBName n ps := by
  induction ps with
  | nil => simp at h
  | cons p qs ih =>
    by_cases hp : dbnameTok.isPrefixOf p
    · simp [replaceFirstDBName, hp]
    · simp only [List.any_cons, hp, Bool.false_or] at h
      simp [replaceFirstDBName, hp, ih h]

theorem replaceFirstDBName_find {n : GoStr} {ps : List GoStr}
    (h : ps.any (fun p => dbnameTok.isPrefixOf p) = true) :
    (replaceFirstDBName n ps).find? (fun p => dbnameTok.isPrefixOf p) =
      some (dbnameTok ++ n) := by
  induction ps with
  | nil => simp at h
  | cons p qs ih =>
    by_cases hp : dbnameTok.isPrefixOf p
    · have hrepl : dbnameTok.isPrefixOf (dbnameTok ++ n) = true :=
        List.isPrefixOf_iff_prefix.mpr (List.prefix_append _ _)
      simp [replaceFirstDBName, hp, List.find?_cons, hrepl]
    · simp only [List.any_cons, hp, Bool.false_or] at h
      simp [replaceFirstDBName, hp, List.find?_cons, ih h]

theorem replaceFirstDBName_mem_cases {n q : GoStr} {ps : List GoStr}
    (h : q ∈ replaceFirstDBName n ps) : q ∈ ps ∨ q = dbnameTok ++ n := by
  induction ps with
  | nil => simp [replaceFirstDBName] at h
  | cons p qs ih =>
    by_cases hp : dbnameTok.isPrefixOf p
    · simp only [replaceFirstDBName, hp, if_pos] at h
      rcases List.mem_cons.mp h with h1 | h1
      · exact Or.inr h1
      · exact Or.inl (List.mem_cons_of_mem _ h1)
    · simp only [replaceFirstDBName, hp] at h
      rcases List.mem_cons.mp h with h1 | h1
      · exact Or.inl (h1 ▸ List.mem_cons_self _ _)
      · rcases ih h1 with h2 | h2
        · exact Or.inl (List.mem_cons_of_mem _ h2)
        · exact Or.inr h2

theorem replaceFirstDBName_ne_nil {n : GoStr} {ps : List GoStr} (h : ps ≠ []) :
    replaceFirstDBName n ps ≠ [] := by
  cases ps with
  | nil => exact absurd rfl h
  | cons p qs =>
    by_cases hp : dbnameTok.isPrefixOf p <;> simp [replaceFirstDBName, hp]

theorem goContains_of_any {d : GoStr}
    (hd : (goSplit ' ' d).any (fun p => dbnameTok.isPrefixOf p) = true) :
    goContains d dbnameTok = true := by
  rcases List.any_eq_true.mp hd with ⟨p, hp, hpre⟩
  have h1 : p <:+: d := by
    have := @mem_goJoin_isInfixP ' ' p (goSplit ' ' d) hp
    rwa [goJoin_goSplit] at this
  exact goContains_iff.mpr
    (((List.isPrefixOf_iff_prefix.mp hpre).isInfix).trans h1)

theorem natDecimalAux_digits {fuel : Nat} :
    ∀ {n : Nat}, n < fuel → ∀ c ∈ natDecimalAux fuel n, c.isDigit = true := by
  induction fuel with
  | zero => intro n hn; omega
  | succ fuel ih =>
    intro n hn c hc
    rw [natDecimalAux] at hc
    by_cases h10 : n < 10
    · rw [if_pos h10] at hc
      have hceq : c = Char.ofNat (48 + n) := by simpa using hc
      subst hceq
      interval_cases n <;> decide
    · rw [if_neg h10] at hc
      rcases List.mem_append.mp hc with h1 | h1
      · have hdiv : n / 10 < n := Nat.div_lt_self (by omega) (by omega)
        exact ih (by omega) c h1
      · have hceq : c = Char.ofNat (48 + n % 10) := by simpa using h1
        subst hceq
        have hm : n % 10 < 10 := Nat.mod_lt _ (by omega)
        generalize n % 10 = m at hm ⊢
        interval_cases m <;> decide

theorem natDecimal_digits (n : Nat) : ∀ c ∈ natDecimal n, c.isDigit = true :=
  natDecimalAux_digits (Nat.lt_succ_self n)

theorem natDecimal_no_underscore (n : Nat) : '_' ∉ natDecimal n := by
  intro h
  have := natDecimal_digits n '_' h
  exact absurd this (by decide)

/-- C1 counterexample: the round trip fails on a valid keyword/value DSN that
has no `dbname=` token. `replaceDBName` appends `?dbname=mydb` to the last
token, but `extractDBName`'s DSN branch only recognizes a space-separated
token that starts with `dbname=`, finds none, and returns the empty string. -/
theorem extract_replace_not_roundtrip_cex :
    extractDBName (replaceDBName (goS "host=localhost user=foo") (goS "mydb"))
      ≠ goS "mydb" := by decide

/-- C1 (amended): for descriptors in which some space-separated token starts
with `dbname=`, and names without spaces,
`extractDBName (replaceDBName d n) = n`. -/
theorem extract_replace_roundtrip_dsn (d n : GoStr)
    (hd : (goSplit ' ' d).any (fun p => dbnameTok.isPrefixOf p) = true)
    (hn : ' ' ∉ n) :
    extractDBName (replaceDBName d n) = n := by
  have hcont := goContains_of_any hd
  rw [replaceDBName, if_pos hcont]
  have hmem : dbnameTok ++ n ∈ replaceFirstDBName n (goSplit ' ' d) :=
    replaceFirstDBName_mem hd
  have hinf : dbnameTok ++ n <:+: goJoin ' ' (replaceFirstDBName n (goSplit ' ' d)) :=
    mem_goJoin_isInfixP hmem
  have hcont2 :
      goContains (goJoin ' ' (replaceFirstDBName n (goSplit ' ' d))) dbnameTok = true :=
    goContains_iff.mpr ((List.prefix_append dbnameTok n).isInfix.trans hinf)
  have hnosep : ∀ p ∈ replaceFirstDBName n (goSplit ' ' d), ' ' ∉ p := by
    intro p hp
    rcases replaceFirstDBName_mem_cases hp with h | h
    · exact not_mem_of_mem_goSplit ' ' d p h
    · subst h
      intro hsp
      rcases List.mem_append.mp hsp with h1 | h1
      · exact absurd h1 (by decide)
      · exact hn h1
  have hne : replaceFirstDBName n (goSplit ' ' d) ≠ [] :=
    replaceFirstDBName_ne_nil (by simp [goSplit])
  have hsplit :
      goSplit ' ' (goJoin ' ' (replaceFirstDBName n (goSplit ' ' d))) =
        replaceFirstDBName n (goSplit ' ' d) :=
    goSplit_goJoin ' ' _ hnosep hne
  have hfind :
      (replaceFirstDBName n (goSplit ' ' d)).find? (fun p => dbnameTok.isPrefixOf p) =
        some (dbnameTok ++ n) :=
    replaceFirstDBName_find hd
  rw [extractDBName]
  rw [if_pos hcont2, hsplit, hfind]
  show goTrim (dbnameTok ++ n) dbnameTok = n
  rw [goTrim, if_pos (List.isPrefixOf_iff_prefix.mpr (List.prefix_append _ _))]
  exact List.drop_left dbnameTok n

/-- C1 witness: the round trip holds on a concrete DSN with a `dbname=` token. -/
theorem extract_replace_roundtrip_dsn_w :
    extractDBName (replaceDBName (goS "host=h dbname=orig sslmode=disable") (goS "mydb"))
      = goS "mydb" :=
  extract_replace_roundtrip_dsn _ _ (by decide) (by decide)

/-- C7 counterexample: on an input that contains `dbname=` only in the middle
of a token (`xdbname=a`), `replaceDBName` takes its rewrite branch, replaces
nothing (no token starts with `dbname=`), and returns the input unchanged —
a descriptor that does not carry the requested name at all. -/
theorem replaceDBName_drops_name_cex :
    ¬ dbnameTok ++ goS "mydb" <:+:
        replaceDBName (goS "xdbname=a") (goS "mydb") := by decide

/-- C7 (amended): whenever the input does not contain `dbname=` as a
mid-token substring only (that is, if it contains `dbname=` at all then some
space-separated token starts with it), the result of `replaceDBName d n`
carries `dbname=n` — as the replaced token or as the appended query
parameter. The function itself is total on strings and never fails. -/
theorem replaceDBName_carries_name (d n : GoStr)
    (h : goContains d dbnameTok = true →
      (goSplit ' ' d).any (fun p => dbnameTok.isPrefixOf p) = true) :
    dbnameTok ++ n <:+: replaceDBName d n := by
  rw [replaceDBName]
  by_cases hc : goContains d dbnameTok = true
  · rw [if_pos hc]
    exact mem_goJoin_isInfixP (replaceFirstDBName_mem (h hc))
  · rw [if_neg hc]
    by_cases hq : goContains d (goS "?") = true
    · rw [if_pos hq]
      have hlit : goS "&dbname=" = '&' :: dbnameTok := rfl
      have hre : d ++ goS "&dbname=" ++ n = (d ++ ['&']) ++ (dbnameTok ++ n) := by
        rw [hlit]; simp
      rw [hre]
      exact (List.suffix_append _ _).isInfix
    · rw [if_neg hq]
      have hlit : goS "?dbname=" = '?' :: dbnameTok := rfl
      have hre : d ++ goS "?dbname=" ++ n = (d ++ ['?']) ++ (dbnameTok ++ n) := by
        rw [hlit]; simp
      rw [hre]
      exact (List.suffix_append _ _).isInfix

/-- C7 witness: on a DSN with no `dbname=` at all, the rewritten descriptor
carries the requested name. -/
theorem replaceDBName_carries_name_w :
    dbnameTok ++ goS "mydb" <:+:
      replaceDBName (goS "host=h port=5432") (goS "mydb") :=
  replaceDBName_carries_name _ _ (by decide)

/-- C8 counterexample: `generateUniqueDBName` does not put an underscore
between the prefix and the timestamp: with prefix `p`, timestamp 5 and pid 7
it returns `p5_7`, not `p_5_7`. -/
theorem generateUniqueDBName_no_separator_cex :
    generateUniqueDBName (goS "p") 5 7
      ≠ goS "p" ++ '_' :: natDecimal 5 ++ '_' :: natDecimal 7 := by decide

/-- C8 (amended): `generateUniqueDBName prefix ts pid` is the prefix,
followed directly (no separator) by the decimal timestamp, an underscore,
and the decimal pid; the underscore between the two numbers is the only
underscore the function itself introduces, since decimal renderings consist
of digits only. -/
theorem generateUniqueDBName_shape (pre : GoStr) (ts pid : Nat) :
    generateUniqueDBName pre ts pid
        = pre ++ natDecimal ts ++ '_' :: natDecimal pid
      ∧ (∀ c ∈ natDecimal ts, c.isDigit = true)
      ∧ (∀ c ∈ natDecimal pid, c.isDigit = true)
      ∧ '_' ∉ natDecimal ts ∧ '_' ∉ natDecimal pid :=
  ⟨rfl, natDecimal_digits ts, natDecimal_digits pid,
    natDecimal_no_underscore ts, natDecimal_no_underscore pid⟩

/-- C8 witness: concrete instance of the shape theorem. -/
theorem generateUniqueDBName_shape_w :
    Char.isDigit '1' = true ∧
      generateUniqueDBName (goS "p") 123 45
        = goS "p" ++ natDecimal 123 ++ '_' :: natDecimal 45 :=
  ⟨(generateUniqueDBName_shape (goS "p") 123 45).2.1 '1' (by decide),
    (generateUniqueDBName_shape (goS "p") 123 45).1⟩

/-! Stateful operations. Each database-facing function becomes a function of
an explicit world record fixing the outcome of every driver call, and
returns, besides its result, the ordered trace of driver operations it
issued. -/

instance {ε α : Type} [DecidableEq ε] [DecidableEq α] : DecidableEq (Except ε α) :=
  fun a b =>
    match a, b with
    | .ok x, .ok y =>
      match decEq x y with
      | isTrue h => isTrue (by rw [h])
      | isFalse h => isFalse (by intro hc; cases hc; exact h rfl)
    | .error x, .error y =>
      match decEq x y with
      | isTrue h => isTrue (by rw [h])
      | isFalse h => isFalse (by intro hc; cases hc; exact h rfl)
    | .ok _, .error _ => isFalse (by intro hc; cases hc)
    | .error _, .ok _ => isFalse (by intro hc; cases hc)

/-- `Except.isOk`, written out because the claims compare results by kind. -/
def exceptIsOk {ε α : Type} : Except ε α → Bool
  | .ok _ => true
  | .error _ => false

/-- Driver operations issued during sandbox creation, in program order.
`execSQL` is `adminDB.Exec`, `queryCatalog name` is the
`SELECT EXISTS(SELECT 1 FROM pg_database WHERE datname = $1)` row query with
parameter `name`, `ensureMigrated` is the `MigrationChecker` call, `openConn`
is `sql.Open("postgres", connStr)`, and `closeConn` is `(*sql.DB).Close` on
the named connection string. The Go creation code never calls Close, so no
model path emits `closeConn`; its presence in the type is what lets the
no-close behavior be stated. -/
inductive AdminOp where
  | execSQL (sql : GoStr)
  | queryCatalog (datname : GoStr)
  | ensureMigrated (url : GoStr)
  | openConn (connStr : GoStr)
  | closeConn (connStr : GoStr)
deriving DecidableEq

/-- The SQL text `CREATE DATABASE <name> TEMPLATE <tpl>` built by
`createTemplateDatabase` and `createTestDatabase`. -/
def createDBSQL (name tpl : GoStr) : GoStr :=
  goS "CREATE DATABASE " ++ name ++ goS " TEMPLATE " ++ tpl

/-- Outcomes of the two driver calls `createTemplateDatabase` can make:
`execErr` is the result of the CREATE DATABASE exec (`none` = success), and
`existsQuery` the result of scanning the catalog existence query. -/
structure TemplateWorld where
  execErr : Option GoStr
  existsQuery : Except GoStr Bool
deriving DecidableEq

/-- Model of Go `strings.ToLower` on the ASCII driver error strings the code
inspects (Go also lowers non-ASCII letters; none occur in these messages). -/
def goToLower (s : GoStr) : GoStr := s.map Char.toLower

/-- The error-text signatures `createTemplateDatabase` recognizes as
"another caller already created the template". -/
def matchesDupSignature (errStr : GoStr) : Bool :=
  goContains errStr (goS "already exists")
    || goContains errStr (goS "duplicate key value violates unique constraint")
    || goContains errStr (goS "pg_database_datname_index")

/-- Model of `createTemplateDatabase(adminDB, sourceDBName, templateDBName)`
(sandbox.go): issue `CREATE DATABASE <template> TEMPLATE <source>` directly;
on success done; on failure treat a lowercased error text matching a known
duplicate signature as success; otherwise re-query the catalog and treat a
clean "it exists now" answer as success; otherwise wrap the original error. -/
def createTemplateDatabase (w : TemplateWorld) (sourceDBName templateDBName : GoStr) :
    Except GoStr Unit × List AdminOp :=
  let sql := createDBSQL templateDBName sourceDBName
  match w.execErr with
  | none => (.ok (), [.execSQL sql])
  | some err =>
    let errStr := goToLower err
    if matchesDupSignature errStr then (.ok (), [.execSQL sql])
    else
      match w.existsQuery with
      | .ok true =>
        (.ok (), [.execSQL sql, .queryCatalog templateDBName])
      | .ok false =>
        (.error (goS "failed to create template database: " ++ err),
          [.execSQL sql, .queryCatalog templateDBName])
      | .error _ =>
        (.error (goS "failed to create template database: " ++ err),
          [.execSQL sql, .queryCatalog templateDBName])

/-- Configuration record (sandbox.go `Config`). `testDBPref` is the Go field
`TestDBPrefix`; `connectionTimeout` is in nanoseconds (Go `time.Duration`). -/
structure Config where
  mainDBURL : GoStr
  templateDBName : GoStr
  testDBPref : GoStr
  maxConnections : Nat
  connectionTimeout : Nat
deriving DecidableEq

/-- `DefaultConfig()` (sandbox.go). -/
def DefaultConfig : Config :=
  { mainDBURL := []
    templateDBName := goS "template_test"
    testDBPref := goS "test_db_"
    maxConnections := 10
    connectionTimeout := 30 * 1000000000 }

/-- Outcomes of the driver calls `NewWithMigrationChecker` makes, in program
order: the migration check, opening the admin connection, the template
creation (a nested `TemplateWorld`), the ephemeral CREATE DATABASE exec, and
opening the pooled test connection. -/
structure CreationWorld where
  migrationErr : Option GoStr
  adminOpenErr : Option GoStr
  tpl : TemplateWorld
  ephExecErr : Option GoStr
  testOpenErr : Option GoStr
deriving DecidableEq

/-- The caller-visible fields of a successfully created Sandbox that the
claims consult. -/
structure SandboxVal where
  dbName : GoStr
deriving DecidableEq

/-- Model of `NewWithMigrationChecker(mainDBURL, config, migrationChecker)`
(sandbox.go): default the config, run the migration check, derive the source
name with `extractDBName` (falling back to `main_db`), open an admin
connection against the maintenance database via `replaceDBName(..,
"postgres")`, ensure the template, generate the unique ephemeral name, create
the ephemeral database from the template, and open the pooled connection to
it. Every failure returns a wrapped error immediately; no error path closes
the admin connection. `timestamp`/`pid` feed `generateUniqueDBName`. -/
def NewWithMigrationChecker (w : CreationWorld) (mainDBURL : GoStr)
    (cfgOpt : Option Config) (timestamp pid : Nat) :
    Except GoStr SandboxVal × List AdminOp :=
  let config := cfgOpt.getD DefaultConfig
  match w.migrationErr with
  | some e =>
    (.error (goS "failed to ensure main DB is migrated: " ++ e),
      [.ensureMigrated mainDBURL])
  | none =>
    let sourceDBName :=
      let s := extractDBName mainDBURL
      if s = [] then goS "main_db" else s
    let adminConnStr := replaceDBName mainDBURL (goS "postgres")
    match w.adminOpenErr with
    | some e =>
      (.error (goS "failed to connect to admin database: " ++ e),
        [.ensureMigrated mainDBURL, .openConn adminConnStr])
    | none =>
      let tplStep := createTemplateDatabase w.tpl sourceDBName config.templateDBName
      let pre := [AdminOp.ensureMigrated mainDBURL, AdminOp.openConn adminConnStr]
        ++ tplStep.2
      match tplStep.1 with
      | .error e =>
        (.error (goS "failed to create template database: " ++ e), pre)
      | .ok _ =>
        let testDBName := generateUniqueDBName config.testDBPref timestamp pid
        let ephSQL := createDBSQL testDBName config.templateDBName
        match w.ephExecErr with
        | some e =>
          (.error (goS "failed to create test database: "
              ++ (goS "failed to create test database: " ++ e)),
            pre ++ [.execSQL ephSQL])
        | none =>
          let testConnStr := replaceDBName mainDBURL testDBName
          match w.testOpenErr with
          | some e =>
            (.error (goS "failed to connect to test database: " ++ e),
              pre ++ [.execSQL ephSQL, .openConn testConnStr])
          | none =>
            (.ok { dbName := testDBName },
              pre ++ [.execSQL ephSQL, .openConn testConnStr])

/-! Teardown (`Sandbox.Close`). -/

/-- Driver operations issued during teardown, in program order:
`closeTestConn` is `s.TestDB.Close()`, `execOnAdmin sql` is
`s.TemplateDB.Exec(sql)` inside `dropTestDatabase`, and `closeAdminConn` is
`s.TemplateDB.Close()`. -/
inductive CloseOp where
  | closeTestConn
  | execOnAdmin (sql : GoStr)
  | closeAdminConn
deriving DecidableEq

/-- The `DROP DATABASE IF EXISTS <name>` statement of `dropTestDatabase`. -/
def dropDBSQL (name : GoStr) : GoStr :=
  goS "DROP DATABASE IF EXISTS " ++ name

/-- The session-termination statement of `dropTestDatabase`
(`SELECT pg_terminate_backend(pid) FROM pg_stat_activity WHERE datname =
<name> AND pid <> pg_backend_pid()`), whitespace-normalized and with the SQL
quoting around the name elided. -/
def terminateSQL (name : GoStr) : GoStr :=
  goS "SELECT pg_terminate_backend(pid) FROM pg_stat_activity WHERE datname = "
    ++ name ++ goS " AND pid <> pg_backend_pid()"

/-- Outcomes of the driver calls `Sandbox.Close` can make while the
corresponding handle is still open. -/
structure CloseWorld where
  testCloseErr : Option GoStr
  terminateErr : Option GoStr
  dropErr : Option GoStr
  adminCloseErr : Option GoStr
deriving DecidableEq

/-- The mutable part of a Sandbox that teardown reads and writes: whether the
two `*sql.DB` handles are still open, and `DBName`. For a Sandbox returned by
`NewWithMigrationChecker` both handle pointers are non-nil, so the
`!= nil` guards in Close are taken; the nil case is not modelled. -/
structure SandboxState where
  testOpen : Bool
  adminOpen : Bool
  dbName : GoStr
deriving DecidableEq

/-- Model of `database/sql.(*DB).Close`: the first close reports the pool's
close outcome and marks the handle closed; closing an already-closed handle
returns nil. -/
def dbClose (isOpen : Bool) (closeErr : Option GoStr) : Option GoStr × Bool :=
  if isOpen then (closeErr, false) else (none, false)

/-- Model of `database/sql.(*DB).Exec`: once the handle is closed every call
fails with the fixed error `sql: database is closed`; while open, the outcome
comes from the world. -/
def dbExec (isOpen : Bool) (execErr : Option GoStr) : Option GoStr :=
  if isOpen then execErr else some (goS "sql: database is closed")

/-- Model of `dropTestDatabase(adminDB, testDBName)` (sandbox.go): terminate
other sessions (failure only logged), then `DROP DATABASE IF EXISTS`; a drop
failure is wrapped and returned. -/
def dropTestDatabase (adminOpen : Bool) (w : CloseWorld) (testDBName : GoStr) :
    Option GoStr × List CloseOp :=
  let _terminateOutcome := dbExec adminOpen w.terminateErr
  let trace := [CloseOp.execOnAdmin (terminateSQL testDBName),
    CloseOp.execOnAdmin (dropDBSQL testDBName)]
  match dbExec adminOpen w.dropErr with
  | some e => (some (goS "failed to drop test database: " ++ e), trace)
  | none => (none, trace)

/-- Model of `Sandbox.Close()` (sandbox.go). The method runs under the
Sandbox mutex, so calls are serialized; each call is modelled as one
sequential state transition. It closes the test handle, drops the test
database when `DBName` is non-empty, closes the admin handle, collects the
non-nil failure messages in order, and returns them joined, or nil when none
occurred. `DBName` is never cleared. -/
def sandboxClose (w : CloseWorld) (st : SandboxState) :
    Except GoStr Unit × SandboxState × List CloseOp :=
  let closeTest := dbClose st.testOpen w.testCloseErr
  let errs1 : List GoStr :=
    match closeTest.1 with
    | some e => [goS "failed to close test DB connection: " ++ e]
    | none => []
  let dropStep :=
    if st.dbName ≠ [] then dropTestDatabase st.adminOpen w st.dbName
    else (none, [])
  let errs2 : List GoStr := errs1 ++
    (match dropStep.1 with
    | some e => [goS "failed to drop test database: " ++ e]
    | none => [])
  let closeAdmin := dbClose st.adminOpen w.adminCloseErr
  let errs3 : List GoStr := errs2 ++
    (match closeAdmin.1 with
    | some e => [goS "failed to close template DB connection: " ++ e]
    | none => [])
  let res : Except GoStr Unit :=
    if errs3 = [] then .ok ()
    else .error (goS "errors during cleanup: " ++ goJoinStr (goS "; ") errs3)
  (res,
    { testOpen := closeTest.2, adminOpen := closeAdmin.2, dbName := st.dbName },
    CloseOp.closeTestConn :: dropStep.2 ++ [CloseOp.closeAdminConn])

/-! Migration checkers (migration_integration.go). -/

/-- Outcomes of the driver calls `DefaultMigrationChecker.EnsureMigrated`
makes: opening the connection, `Ping`, and scanning the
`information_schema.tables` existence query for `schema_migrations`
(`Except` error = the query/scan failed; `ok b` = the table exists iff `b`). -/
structure BasicCheckerWorld where
  openErr : Option GoStr
  pingErr : Option GoStr
  tableQuery : Except GoStr Bool
deriving DecidableEq

/-- Model of `DefaultMigrationChecker.EnsureMigrated(dbURL)`
(migration_integration.go): open, ping, then check for the migration table;
a failing check — like a missing table — is only logged, never an error. -/
def defaultEnsureMigrated (w : BasicCheckerWorld) : Except GoStr Unit :=
  match w.openErr with
  | some e => .error (goS "failed to connect to database: " ++ e)
  | none =>
    match w.pingErr with
    | some e => .error (goS "failed to ping database: " ++ e)
    | none =>
      match w.tableQuery with
      | .error _ => .ok ()
      | .ok _ => .ok ()

/-- Outcomes of the calls `GooseMigrateChecker.EnsureMigrated` makes:
`lookPathErr` is the result of `exec.LookPath` on the goose binary (`none` =
resolved); `dirExists` models `os.Stat` on the migrations directory reporting
`IsNotExist` exactly when the directory does not exist (other stat errors are
not modelled); `runErr` is the combined outcome of running the binary
(`some (err, output)` = non-zero exit). -/
structure GooseWorld where
  lookPathErr : Option GoStr
  dirExists : Bool
  runErr : Option (GoStr × GoStr)
deriving DecidableEq

/-- Model of `GooseMigrateChecker.EnsureMigrated(dbURL)`
(migration_integration.go). Besides the result it returns whether the
external binary was invoked (`cmd.CombinedOutput` reached). -/
def gooseEnsureMigrated (w : GooseWorld) (migrationsPath : GoStr) :
    Except GoStr Unit × Bool :=
  match w.lookPathErr with
  | some e => (.error (goS "goose binary not found in PATH: " ++ e), false)
  | none =>
    if w.dirExists = false then
      (.error (goS "migrations directory not found: " ++ migrationsPath), false)
    else
      match w.runErr with
      | some eo =>
        (.error (goS "failed to run migrations: " ++ eo.1
            ++ goS ", output: " ++ eo.2), true)
      | none => (.ok (), true)

/-- True exactly for the close operation on the admin connection trace. -/
def isCloseConn : AdminOp → Bool
  | .closeConn _ => true
  | _ => false

/-- C2: `createTemplateDatabase` issues `CREATE DATABASE <template> TEMPLATE
<source>` as its very first operation (no existence pre-check); a clean exec
is success; an exec error whose lowercased text matches a known
already-exists / unique-constraint signature is success; otherwise the
catalog is re-queried and a clean positive answer is success, anything else
is an error wrapping the original exec error. -/
theorem createTemplateDatabase_spec (w : TemplateWorld) (src tpl : GoStr) :
    ((createTemplateDatabase w src tpl).2.head? =
        some (.execSQL (createDBSQL tpl src)))
    ∧ (w.execErr = none →
        createTemplateDatabase w src tpl =
          (.ok (), [.execSQL (createDBSQL tpl src)]))
    ∧ (∀ e, w.execErr = some e → matchesDupSignature (goToLower e) = true →
        createTemplateDatabase w src tpl =
          (.ok (), [.execSQL (createDBSQL tpl src)]))
    ∧ (∀ e, w.execErr = some e → matchesDupSignature (goToLower e) = false →
        (createTemplateDatabase w src tpl).2 =
          [.execSQL (createDBSQL tpl src), .queryCatalog tpl]
        ∧ (w.existsQuery = .ok true →
            (createTemplateDatabase w src tpl).1 = .ok ())
        ∧ (w.existsQuery ≠ .ok true →
            (createTemplateDatabase w src tpl).1 =
              .error (goS "failed to create template database: " ++ e))) := by
  rcases w with ⟨execErr, existsQuery⟩
  cases execErr with
  | none => simp [createTemplateDatabase]
  | some e =>
    by_cases hsig : matchesDupSignature (goToLower e) = true
    · simp [createTemplateDatabase, hsig]
    · cases existsQuery with
      | error e2 => simp [createTemplateDatabase, hsig]
      | ok b => cases b <;> simp [createTemplateDatabase, hsig]

/-- C2 witness: a duplicate-key error from a concurrent creator is treated
as success, with no catalog query issued. -/
theorem createTemplateDatabase_spec_w :
    createTemplateDatabase
        ⟨some (goS "pq: database template_test already exists"), .ok false⟩
        (goS "main_db") (goS "template_test")
      = (.ok (), [.execSQL (createDBSQL (goS "template_test") (goS "main_db"))]) :=
  (createTemplateDatabase_spec
      ⟨some (goS "pq: database template_test already exists"), .ok false⟩
      (goS "main_db") (goS "template_test")).2.2.1 _ rfl (by decide)

/-- C4: once the migration check, the admin connect and the template step
have succeeded, creation issues exactly one `CREATE DATABASE <ephemeral>
TEMPLATE <configured template name>` with the generated unique name, and a
failure of that exec is returned at once as a wrapped fatal error — the trace
ends at that single attempt, with no retry. -/
theorem ephemeralCreation_fatal (w : CreationWorld) (mainDBURL : GoStr)
    (cfgOpt : Option Config) (timestamp pid : Nat) (e : GoStr)
    (h1 : w.migrationErr = none) (h2 : w.adminOpenErr = none)
    (h3 : w.tpl.execErr = none) (h4 : w.ephExecErr = some e) :
    NewWithMigrationChecker w mainDBURL cfgOpt timestamp pid =
      (.error (goS "failed to create test database: "
          ++ (goS "failed to create test database: " ++ e)),
        [.ensureMigrated mainDBURL,
          .openConn (replaceDBName mainDBURL (goS "postgres")),
          .execSQL (createDBSQL (cfgOpt.getD DefaultConfig).templateDBName
            (if extractDBName mainDBURL = [] then goS "main_db"
              else extractDBName mainDBURL)),
          .execSQL (createDBSQL
            (generateUniqueDBName (cfgOpt.getD DefaultConfig).testDBPref
              timestamp pid)
            (cfgOpt.getD DefaultConfig).templateDBName)]) := by
  rcases w with ⟨m, a, tpl, eph, t⟩
  rcases tpl with ⟨te, tq⟩
  simp only at h1 h2 h3 h4
  subst h1; subst h2; subst h3; subst h4
  simp [NewWithMigrationChecker, createTemplateDatabase]

/-- C4 witness: a connection-limit failure while creating the ephemeral
database is returned as a fatal wrapped error after the single attempt. -/
theorem ephemeralCreation_fatal_w :
    NewWithMigrationChecker
        ⟨none, none, ⟨none, .ok false⟩, some (goS "too many connections"), none⟩
        (goS "postgres://u:p@localhost:5432/main_db?sslmode=disable") none 5 7 =
      (.error (goS "failed to create test database: "
          ++ (goS "failed to create test database: "
            ++ goS "too many connections")),
        [.ensureMigrated (goS "postgres://u:p@localhost:5432/main_db?sslmode=disable"),
          .openConn (replaceDBName
            (goS "postgres://u:p@localhost:5432/main_db?sslmode=disable")
            (goS "postgres")),
          .execSQL (createDBSQL ((Option.none).getD DefaultConfig).templateDBName
            (if extractDBName (goS "postgres://u:p@localhost:5432/main_db?sslmode=disable") = []
              then goS "main_db"
              else extractDBName (goS "postgres://u:p@localhost:5432/main_db?sslmode=disable"))),
          .execSQL (createDBSQL
            (generateUniqueDBName ((Option.none).getD DefaultConfig).testDBPref 5 7)
            ((Option.none).getD DefaultConfig).templateDBName)]) :=
  ephemeralCreation_fatal
    ⟨none, none, ⟨none, .ok false⟩, some (goS "too many connections"), none⟩
    (goS "postgres://u:p@localhost:5432/main_db?sslmode=disable") none 5 7
    (goS "too many connections") rfl rfl rfl rfl

/-- C6 refuted on the code: when template creation fails hard after the
admin connection was opened, creation returns the error but never closes the
admin connection — the trace contains the admin open and no close operation
at all, so the connection is left dangling. -/
theorem adminConn_leak_on_error :
    exceptIsOk (NewWithMigrationChecker
        ⟨none, none, ⟨some (goS "disk full"), .ok false⟩, none, none⟩
        (goS "postgres://u:p@localhost:5432/main_db?sslmode=disable")
        none 5 7).1 = false
    ∧ AdminOp.openConn (replaceDBName
        (goS "postgres://u:p@localhost:5432/main_db?sslmode=disable")
        (goS "postgres"))
      ∈ (NewWithMigrationChecker
          ⟨none, none, ⟨some (goS "disk full"), .ok false⟩, none, none⟩
          (goS "postgres://u:p@localhost:5432/main_db?sslmode=disable")
          none 5 7).2
    ∧ (NewWithMigrationChecker
          ⟨none, none, ⟨some (goS "disk full"), .ok false⟩, none, none⟩
          (goS "postgres://u:p@localhost:5432/main_db?sslmode=disable")
          none 5 7).2.any isCloseConn = false := by decide

/-- C3 refuted on the code: `Close` never clears `DBName` and never guards
against re-entry, so a second call re-attempts the drop against the admin
handle the first call closed; the first call succeeds and the second returns
a cleanup error instead of succeeding or repeating the first result. -/
theorem close_twice_not_idempotent :
    (sandboxClose ⟨none, none, none, none⟩ ⟨true, true, goS "test_db_5_7"⟩).1
      = .ok ()
    ∧ CloseOp.execOnAdmin (dropDBSQL (goS "test_db_5_7")) ∈
        (sandboxClose ⟨none, none, none, none⟩
          (sandboxClose ⟨none, none, none, none⟩
            ⟨true, true, goS "test_db_5_7"⟩).2.1).2.2
    ∧ (sandboxClose ⟨none, none, none, none⟩
        (sandboxClose ⟨none, none, none, none⟩
          ⟨true, true, goS "test_db_5_7"⟩).2.1).1
      = .error (goS "errors during cleanup: failed to drop test database: failed to drop test database: sql: database is closed") := by
  decide

/-- C5: on a live sandbox, `Close` returns exactly the combination of the
non-nil failures of closing the test connection, dropping the test database
and closing the admin connection, in that order; the session-termination
outcome never influences the result; and all three succeeding yields
success. -/
theorem sandboxClose_aggregates (w : CloseWorld) (name : GoStr)
    (hname : name ≠ []) :
    ((sandboxClose w ⟨true, true, name⟩).1 =
      (if ((w.testCloseErr.map
            (fun e => goS "failed to close test DB connection: " ++ e)).toList
          ++ (w.dropErr.map (fun e => goS "failed to drop test database: "
              ++ (goS "failed to drop test database: " ++ e))).toList
          ++ (w.adminCloseErr.map
            (fun e => goS "failed to close template DB connection: " ++ e)).toList) = []
        then .ok ()
        else .error (goS "errors during cleanup: "
          ++ goJoinStr (goS "; ")
            ((w.testCloseErr.map
              (fun e => goS "failed to close test DB connection: " ++ e)).toList
            ++ (w.dropErr.map (fun e => goS "failed to drop test database: "
                ++ (goS "failed to drop test database: " ++ e))).toList
            ++ (w.adminCloseErr.map
              (fun e => goS "failed to close template DB connection: " ++ e)).toList))))
    ∧ (∀ t, (sandboxClose { w with terminateErr := t } ⟨true, true, name⟩).1
        = (sandboxClose w ⟨true, true, name⟩).1)
    ∧ (w.testCloseErr = none → w.dropErr = none → w.adminCloseErr = none →
        (sandboxClose w ⟨true, true, name⟩).1 = .ok ()) := by
  rcases w with ⟨tc, te, dr, ac⟩
  cases tc <;> cases dr <;> cases ac <;>
    simp [sandboxClose, dropTestDatabase, dbExec, dbClose, hname]

/-- C5 witness: a failure to terminate other sessions is not included in the
result — Close still returns success. -/
theorem sandboxClose_aggregates_w :
    (sandboxClose ⟨none, some (goS "no such process"), none, none⟩
      ⟨true, true, goS "test_db_1_2"⟩).1 = .ok () :=
  (sandboxClose_aggregates ⟨none, some (goS "no such process"), none, none⟩
    (goS "test_db_1_2") (by decide)).2.2 rfl rfl rfl

/-- C9: the basic checker succeeds whenever opening and pinging succeed,
whatever the migration-table query returns — a query error included: it is
logged and swallowed, never surfaced. -/
theorem defaultEnsureMigrated_swallows_query_error (w : BasicCheckerWorld)
    (h1 : w.openErr = none) (h2 : w.pingErr = none) :
    defaultEnsureMigrated w = .ok () := by
  rcases w with ⟨o, p, q⟩
  simp only at h1 h2
  subst h1; subst h2
  cases q <;> rfl

/-- C9 witness: a failing table-check query still yields success. -/
theorem defaultEnsureMigrated_swallows_query_error_w :
    defaultEnsureMigrated
        ⟨none, none, .error (goS "connection reset by peer")⟩ = .ok () :=
  defaultEnsureMigrated_swallows_query_error
    ⟨none, none, .error (goS "connection reset by peer")⟩ rfl rfl

/-- C10: the goose checker fails when the binary does not resolve; fails
when the migrations directory is missing even though the binary resolved;
and invokes the external binary exactly when both the binary resolves and
the directory exists. -/
theorem gooseEnsureMigrated_preconditions (w : GooseWorld) (p : GoStr) :
    ((gooseEnsureMigrated w p).2 = true
        ↔ (w.lookPathErr = none ∧ w.dirExists = true))
    ∧ (∀ e, w.lookPathErr = some e →
        gooseEnsureMigrated w p =
          (.error (goS "goose binary not found in PATH: " ++ e), false))
    ∧ (w.lookPathErr = none → w.dirExists = false →
        gooseEnsureMigrated w p =
          (.error (goS "migrations directory not found: " ++ p), false)) := by
  rcases w with ⟨l, d, r⟩
  cases l <;> cases d <;> cases r <;> simp [gooseEnsureMigrated]

/-- C10 witness: binary present, directory missing — the checker fails and
the binary is not invoked. -/
theorem gooseEnsureMigrated_preconditions_w :
    gooseEnsureMigrated ⟨none, false, none⟩ (goS "./db/migrations") =
      (.error (goS "migrations directory not found: " ++ goS "./db/migrations"),
        false) :=
  (gooseEnsureMigrated_preconditions ⟨none, false, none⟩
    (goS "./db/migrations")).2.2 rfl rfl

end SqlSandbox
